import Mathlib

/-
  Verification development for the CareerCompass orchestration core.

  Shallow embedding of the three-stage pipeline (domain reasoning,
  recommendation, coordinator) over the shared AssistantState record,
  translated from:
    src/state/schema.py
    src/agents/domain_reasoning.py
    src/agents/recommendation.py
    src/agents/coordinator.py

  Modelling conventions:
  - The completion backend is an explicit oracle parameter.  For the two
    stages that immediately run json.loads on the completion text, the
    oracle returns the parse result directly (none = JSONDecodeError on
    the returned text); for the coordinator, whose direct branch uses the
    raw completion text, the oracle returns a String.
  - Python floats are modelled as exact rationals; min only compares its
    arguments, so the order-sensitive behaviour is preserved.
  - Python str.lower is modelled ASCII-faithfully by mapping Char.toLower
    over the characters; all keyword tables in the source are ASCII.
  - Fallible Python operations (attribute access such as .get on a
    non-dict, len or indexing on unsized values) are modelled in the
    Except monad; the error string names the Python exception class.
-/

/-! ### Generic Python-semantics helpers -/

/-- Is the first list a prefix of the second (Boolean, structural). -/
def listStartsWith : List Char → List Char → Bool
  | [], _ => true
  | _ :: _, [] => false
  | a :: as, b :: bs => a == b && listStartsWith as bs

/-- Is the first list a contiguous sublist of the second (Boolean, structural). -/
def listContainsSub : List Char → List Char → Bool
  | needle, [] => needle.isEmpty
  | needle, b :: bs => listStartsWith needle (b :: bs) || listContainsSub needle bs

/-- Python substring membership: needle in hay. -/
def strContains (hay needle : String) : Bool :=
  listContainsSub needle.data hay.data

/-- Python str.lower, ASCII-faithful (all scanned keyword tables are ASCII). -/
def strLower (s : String) : String :=
  String.mk (s.data.map Char.toLower)

/-- ASCII whitespace recognizer used by the pyStrip model. -/
def isPyWhitespace (c : Char) : Bool :=
  c == ' ' || c == '\t' || c == '\n' || c == '\r'

/-- Python str.strip with no arguments (whitespace trimming at both ends). -/
def pyStrip (s : String) : String :=
  String.mk (((s.data.dropWhile isPyWhitespace).reverse.dropWhile isPyWhitespace).reverse)

/-- Python min on two floats (modelled as rationals): first argument wins ties. -/
def pyMin (a b : ℚ) : ℚ :=
  if a ≤ b then a else b

/-- Python x or d for an optional string (None and the empty string are falsy). -/
def pyOrString (a : Option String) (d : String) : String :=
  match a with
  | none => d
  | some s => if s = "" then d else s

/-- Python x or d for an optional list of strings (None and [] are falsy). -/
def pyOrList (a : Option (List String)) (d : List String) : List String :=
  match a with
  | none => d
  | some l => if l.isEmpty then d else l

/-! ### JSON values (results of json.loads) -/

/-- A parsed JSON value, as produced by json.loads.  Python dicts coming out
of json.loads have string keys; they are modelled as association lists with
first-match lookup (json.loads never produces duplicate keys). -/
inductive JsonValue where
  | null
  | bool (b : Bool)
  | num (q : ℚ)
  | str (s : String)
  | arr (elems : List JsonValue)
  | obj (fields : List (String × JsonValue))

/-- Python truthiness of a JSON value. -/
def JsonValue.truthy : JsonValue → Bool
  | .null => false
  | .bool b => b
  | .num q => q != 0
  | .str s => s != ""
  | .arr elems => !elems.isEmpty
  | .obj fields => !fields.isEmpty

/-- Is this value a Python dict (isinstance(x, dict))? -/
def JsonValue.isObj : JsonValue → Bool
  | .obj _ => true
  | _ => false

/-- First-match key lookup in a JSON object field list. -/
def jsonLookup (fields : List (String × JsonValue)) (k : String) : Option JsonValue :=
  List.lookup k fields

/-- Does a JSON value have a given key (it must be a dict and contain the key)? -/
def jsonHasKey (v : JsonValue) (k : String) : Bool :=
  match v with
  | .obj fields => (jsonLookup fields k).isSome
  | _ => false

/-- Python v.get(k) on a JSON value: dict lookup returning None when the key is
absent, AttributeError when the value is not a dict. -/
def pyDictGet (v : JsonValue) (k : String) : Except String (Option JsonValue) :=
  match v with
  | .obj fields => .ok (jsonLookup fields k)
  | _ => .error "AttributeError"

/-- Python v.get(k, d) on a JSON value: dict lookup with a default,
AttributeError when the value is not a dict. -/
def pyDictGetD (v : JsonValue) (k : String) (d : JsonValue) : Except String JsonValue :=
  match v with
  | .obj fields => .ok ((jsonLookup fields k).getD d)
  | _ => .error "AttributeError"

/-- Python len on a JSON value (TypeError on unsized values). -/
def pyLen : JsonValue → Except String Nat
  | .arr elems => .ok elems.length
  | .str s => .ok s.length
  | .obj fields => .ok fields.length
  | _ => .error "TypeError"

/-- Python v[i] for a natural index (lists and strings; a dict raises KeyError
because json.loads dicts have only string keys; other values raise TypeError). -/
def pyIndex : JsonValue → Nat → Except String JsonValue
  | .arr elems, i =>
    match elems.get? i with
    | some v => .ok v
    | none => .error "IndexError"
  | .str s, i =>
    match s.data.get? i with
    | some c => .ok (JsonValue.str (String.mk [c]))
    | none => .error "IndexError"
  | .obj _, _ => .error "KeyError"
  | _, _ => .error "TypeError"

/-- Python v[:3] (lists and strings slice; other values raise TypeError). -/
def pySliceToThree : JsonValue → Except String (List JsonValue)
  | .arr elems => .ok (elems.take 3)
  | .str s => .ok ((s.data.take 3).map (fun c => JsonValue.str (String.mk [c])))
  | _ => .error "TypeError"

mutual

/-- Textual rendering of a JSON value, modelling how a value appears inside a
Python f-string.  Exact for strings, integers, booleans and None — the only
cases the embedded pipeline ever formats into user-visible text.  For
non-integer numbers and containers (which the pipeline only ever embeds into
a prompt handed to the universally quantified completion oracle) this is an
approximate rendering of the Python repr. -/
def pyStr : JsonValue → String
  | .null => "None"
  | .bool true => "True"
  | .bool false => "False"
  | .num q => if q.den = 1 then toString q.num else toString q
  | .str s => s
  | .arr elems => "[" ++ pyStrList elems ++ "]"
  | .obj fields => "\x7b" ++ pyStrFields fields ++ "\x7d"

/-- Comma-separated rendering of JSON array elements. -/
def pyStrList : List JsonValue → String
  | [] => ""
  | [v] => pyStr v
  | v :: vs => pyStr v ++ ", " ++ pyStrList vs

/-- Comma-separated rendering of JSON object fields. -/
def pyStrFields : List (String × JsonValue) → String
  | [] => ""
  | [(k, v)] => k ++ ": " ++ pyStr v
  | (k, v) :: fields => k ++ ": " ++ pyStr v ++ ", " ++ pyStrFields fields

end

/-- Python x or d for an optional JSON value (None and falsy values give d). -/
def pyOrJson (a : Option JsonValue) (d : JsonValue) : JsonValue :=
  match a with
  | none => d
  | some v => if v.truthy then v else d

/-! ### The shared state record (src/state/schema.py) -/

/-- AssistantState: the single record threaded through every pipeline node. -/
structure AssistantState where
  user_input : String
  interpreted_goal : Option String := none
  extracted_constraints : Option (List String) := none
  missing_information : Option (List String) := none
  confidence_score : Option ℚ := none
  decision_type : Option String := none
  recommendations : Option JsonValue := none
  final_response : Option String := none

/-! ### Domain Reasoning stage (src/agents/domain_reasoning.py) -/

/-- The well-typed shape of the JSON object the domain-reasoning prompt asks
the completion backend for.  Each field is optional because the code reads
the parsed dict with .get; the fields themselves are taken at the types the
prompt contract demands (string goal, string lists, numeric confidence),
which is how every claim about this stage quantifies over them. -/
structure DomainParsed where
  interpreted_goal : Option String := none
  extracted_constraints : Option (List String) := none
  missing_information : Option (List String) := none
  confidence_score : Option ℚ := none

/-- Oracle for the domain-reasoning completion call: system prompt and user
prompt to the json.loads result of the completion text (none = parse error). -/
abbrev DomainOracle := String → String → Option DomainParsed

/-- System prompt of the domain-reasoning stage (verbatim from the source,
with apostrophes escaped). -/
def domainSystemPrompt : String :=
  "You are a domain reasoning engine for a Student Career Planning Assistant.\n\nYour job is to parse the student\x27s query and return a JSON object with exactly these keys:\n  - interpreted_goal   : string — what the student is trying to decide or achieve\n  - extracted_constraints : list of strings — preferences, limits, or context clues mentioned\n  - missing_information   : list of strings — what additional info would sharpen the analysis\n  - confidence_score      : float between 0.0 and 1.0\n\nConfidence scoring guide:\n  - 0.9–1.0 : query is specific, constraints are clear, goal is unambiguous\n  - 0.7–0.89: goal is reasonably clear but some context is missing\n  - 0.5–0.69: goal is vague or multiple interpretations are equally plausible\n  - below 0.5: query is too ambiguous to reason about usefully\n\nReturn ONLY valid JSON. No prose. No markdown fences.\n"

/-- The six fixed constraint categories with their trigger phrases
(explicit_keywords in the source, in dict insertion order). -/
def explicit_keywords : List (String × List String) :=
  [("time", ["limited time", "short on time", "urgent", "deadline", "soon"]),
   ("budget", ["limited budget", "can\x27t afford", "cheap", "free"]),
   ("experience", ["beginner", "just starting", "no experience", "new to"]),
   ("priority", ["need a job", "job priority", "employment", "urgent"]),
   ("interest", ["love", "passion", "interested in", "enjoy"]),
   ("skill_gap", ["don\x27t know", "unfamiliar", "never learned"])]

/-- _extract_explicit_constraints: scan the lower-cased user input; a category
is emitted once, in table order, if any of its trigger phrases occurs as a
substring. -/
def _extract_explicit_constraints (user_input : String) : List String :=
  let user_lower := strLower user_input
  (explicit_keywords.filter
    (fun p => p.2.any (fun kw => strContains user_lower kw))).map Prod.fst

/-- Background-context trigger phrases (context_keywords in the source). -/
def context_keywords : List String :=
  ["first year", "second year", "third year", "fourth year",
   "freshman", "sophomore", "junior", "senior",
   "year 1", "year 2", "year 3", "year 4",
   "experience", "worked with", "built with", "used", "familiar with", "studied",
   "python", "javascript", "java", "c++", "react", "django", "nodejs",
   "sql", "databases", "api", "aws", "cloud",
   "currently", "doing", "working on", "taking", "course"]

/-- _has_background_context: does the lower-cased user input contain any
background-context trigger phrase? -/
def _has_background_context (user_input : String) : Bool :=
  let user_lower := strLower user_input
  context_keywords.any (fun kw => strContains user_lower kw)

/-- _adjust_confidence_for_comparison: cap the confidence of a comparison
query at 0.67 when no background context is present; otherwise pass it
through unchanged. -/
def _adjust_confidence_for_comparison
    (confidence : ℚ) (decision_type : String) (user_input : String) : ℚ :=
  if decision_type ≠ "comparison" then confidence
  else
    let has_context := _has_background_context user_input
    if !has_context then pyMin confidence (67/100)
    else confidence

/-- The comparison trigger substrings scanned over the interpreted goal. -/
def comparison_keywords : List String :=
  [" or ", "vs", "which", "better", "compare"]

/-- The fixed parse-failure fallback dict of the domain-reasoning stage. -/
def domainParseFallback : DomainParsed :=
  { interpreted_goal := some "Unable to parse student goal.",
    extracted_constraints := some [],
    missing_information := some ["Please restate your question clearly."],
    confidence_score := some (3/10) }

/-- run_domain_reasoning: interpret the user input via the completion oracle,
classify decision_type from the lower-cased interpreted goal, re-derive the
constraints deterministically from user_input, adjust the confidence, and
return the updated state. -/
def run_domain_reasoning (llm : DomainOracle) (state : AssistantState) : AssistantState :=
  let active_input := state.user_input
  let parsed := (llm domainSystemPrompt active_input).getD domainParseFallback
  let interpreted_goal := strLower (parsed.interpreted_goal.getD "")
  let decision_type :=
    if comparison_keywords.any (fun k => strContains interpreted_goal k) then "comparison"
    else "direct_path"
  let explicit_constraints := _extract_explicit_constraints active_input
  let original_confidence := parsed.confidence_score.getD (1/2)
  let adjusted_confidence :=
    _adjust_confidence_for_comparison original_confidence decision_type active_input
  { state with
      interpreted_goal := parsed.interpreted_goal,
      extracted_constraints := some explicit_constraints,
      missing_information := some (parsed.missing_information.getD []),
      confidence_score := some adjusted_confidence,
      decision_type := some decision_type }

/-! ### Recommendation stage (src/agents/recommendation.py) -/

/-- Oracle for the two recommendation completion calls: system prompt and
user prompt to the json.loads result of the completion text (none = parse
error on the returned text). -/
abbrev RecOracle := String → String → Option JsonValue

/-- System prompt of the comparison branch (verbatim, braces and apostrophes
escaped). -/
def comparisonSystemPrompt : String :=
  "You are a structured decision-support engine.\n\nWhen a student compares two or more career paths, you do NOT choose one.\nYou design a 2-week structured exploration experiment.\n\nSTRICT RULES:\n- Return ONLY valid JSON.\n- No explanations.\n- No markdown.\n- No emojis.\n- No prose outside JSON.\n- exploration_plan must contain exactly two items (Week 1 and Week 2).\n\nReturn a JSON object with exactly these keys:\n  - strategy              : string (must be \"exploration_experiment\")\n  - exploration_plan      : list of 2 dicts with keys \x7bweek, focus, task\x7d\n  - decision_criteria     : list of 3 reflective evaluation questions\n  - final_suggestion      : short decision guidance sentence\n  - resources             : list of 2–4 learning resources\n"

/-- System prompt of the direct-path branch (verbatim). -/
def directPathSystemPrompt : String :=
  "You are a career recommendation engine for a Student Planning Assistant.\n\nYou receive a structured interpretation of a student\x27s goal and constraints.\nReturn a JSON object with exactly these keys:\n  - primary_path        : string — the most suitable career direction given the context\n  - secondary_path      : string — a viable alternative\n  - reasoning           : string — 2–3 sentences explaining why primary_path fits best\n  - immediate_next_steps: list of strings — 3 concrete actions the student can take this week\n  - resources           : list of strings — 2–3 specific learning resources or links\n\nReturn ONLY valid JSON. No prose. No markdown fences.\n"

/-- _comparison_fallback: the fixed deterministic fallback object of the
comparison branch (the goal argument is accepted but unused, as in the
source). -/
def _comparison_fallback (goal : String) : JsonValue :=
  JsonValue.obj
    [("strategy", JsonValue.str "exploration_experiment"),
     ("exploration_plan", JsonValue.arr
       [JsonValue.obj
         [("week", JsonValue.num 1),
          ("focus", JsonValue.str "Backend Development"),
          ("task", JsonValue.str "Build a small REST API using FastAPI with authentication and database integration.")],
        JsonValue.obj
         [("week", JsonValue.num 2),
          ("focus", JsonValue.str "Machine Learning"),
          ("task", JsonValue.str "Build a small end-to-end ML classification project and expose it via a simple API.")]]),
     ("decision_criteria", JsonValue.arr
       [JsonValue.str "Which work felt more engaging?",
        JsonValue.str "Which learning curve felt sustainable?",
        JsonValue.str "Which type of problem-solving excited you more?"]),
     ("final_suggestion", JsonValue.str "Choose the path that maintains your long-term curiosity after hands-on exploration."),
     ("resources", JsonValue.arr
       [JsonValue.str "FastAPI official documentation",
        JsonValue.str "Scikit-learn documentation",
        JsonValue.str "Andrew Ng Machine Learning Course"])]

/-- The five required keys of the comparison schema (required_keys in the
source; a set there, so only membership matters). -/
def requiredComparisonKeys : List String :=
  ["strategy", "exploration_plan", "decision_criteria", "final_suggestion", "resources"]

/-- The user prompt built by the comparison branch. -/
def comparisonContextBlock (goal : String) (constraints missing : List String) : String :=
  "Student goal: " ++ goal ++ "\n" ++
  "Explicit constraints: " ++
    (if !constraints.isEmpty then String.intercalate ", " constraints else "none stated") ++ "\n" ++
  "Missing information: " ++
    (if !missing.isEmpty then String.intercalate ", " missing else "none")

/-- _generate_comparison_recommendation: call the oracle; on parse failure,
non-dict result, missing required key, or falsy exploration_plan return the
deterministic fallback, otherwise return the parsed dict unchanged. -/
def _generate_comparison_recommendation
    (llm : RecOracle) (goal : String) (constraints missing : List String) : JsonValue :=
  let context_block := comparisonContextBlock goal constraints missing
  match llm comparisonSystemPrompt context_block with
  | none => _comparison_fallback goal
  | some recommendations =>
    match recommendations with
    | .obj fields =>
      if !(requiredComparisonKeys.all (fun k => (jsonLookup fields k).isSome)) then
        _comparison_fallback goal
      else if !((jsonLookup fields "exploration_plan").getD JsonValue.null).truthy then
        _comparison_fallback goal
      else JsonValue.obj fields
    | _ => _comparison_fallback goal

/-- The degraded-but-structurally-complete object substituted by the
direct-path branch on parse failure. -/
def directParseFallback : JsonValue :=
  JsonValue.obj
    [("primary_path", JsonValue.str "Unable to parse recommendations."),
     ("secondary_path", JsonValue.str "N/A"),
     ("reasoning", JsonValue.str "LLM returned unexpected format."),
     ("immediate_next_steps", JsonValue.arr []),
     ("resources", JsonValue.arr [])]

/-- The user prompt built by the direct-path branch. -/
def directContextBlock (goal : String) (constraints missing : List String) : String :=
  "Student goal: " ++ goal ++ "\n" ++
  "Constraints / preferences: " ++
    (if !constraints.isEmpty then String.intercalate ", " constraints else "none stated") ++ "\n" ++
  "Note — information not available: " ++
    (if !missing.isEmpty then String.intercalate ", " missing else "none")

/-- _generate_direct_recommendation: call the oracle; on parse failure return
the degraded object, otherwise return whatever parsed, with no further
validation. -/
def _generate_direct_recommendation
    (llm : RecOracle) (goal : String) (constraints missing : List String) : JsonValue :=
  let context_block := directContextBlock goal constraints missing
  match llm directPathSystemPrompt context_block with
  | none => directParseFallback
  | some recommendations => recommendations

/-- The branch test of run_recommendation (lines 162 and 167 of the source):
decision_type defaulted through Python or, compared with "comparison". -/
def recommendationBranchIsComparison (state : AssistantState) : Bool :=
  pyOrString state.decision_type "direct_path" == "comparison"

/-- run_recommendation: dispatch on decision_type and store the generated
recommendations.  On the direct branch the source then logs
recommendations.get("primary_path"), an attribute access that raises
AttributeError when the parsed completion was not a dict; that access is
modelled by the pyDictGet step. -/
def run_recommendation (llm : RecOracle) (state : AssistantState) :
    Except String AssistantState :=
  let goal := pyOrString state.interpreted_goal state.user_input
  let constraints := pyOrList state.extracted_constraints []
  let missing := pyOrList state.missing_information []
  if recommendationBranchIsComparison state then
    let recommendations := _generate_comparison_recommendation llm goal constraints missing
    .ok { state with recommendations := some recommendations }
  else
    let recommendations := _generate_direct_recommendation llm goal constraints missing
    match pyDictGet recommendations "primary_path" with
    | .error e => .error e
    | .ok _ => .ok { state with recommendations := some recommendations }

/-! ### Coordinator stage (src/agents/coordinator.py) -/

/-- Oracle for the coordinator completion call: system prompt and user prompt
to the raw completion text (the direct branch uses the text itself). -/
abbrev TextOracle := String → String → String

/-- The branch test of compile_response (lines 37 and 42 of the source):
decision_type defaulted through Python or, compared with "comparison". -/
def coordinatorBranchIsComparison (state : AssistantState) : Bool :=
  pyOrString state.decision_type "direct_path" == "comparison"

/-- recs as computed at the top of compile_response:
state.recommendations or the empty dict. -/
def recsOf (state : AssistantState) : JsonValue :=
  pyOrJson state.recommendations (JsonValue.obj [])

/-- The fixed introductory sentence of the comparison response. -/
def comparisonIntro : String :=
  "This is a comparison decision. Instead of prematurely selecting one path, I recommend a structured two-week exploration plan:\n\n"

/-- The Week 1 / Week 2 block of the comparison response: present only when
the exploration plan has at least two entries, reading each entry through
.get with the source defaults. -/
def comparisonWeekBlock (plan : JsonValue) (planLen : Nat) : Except String String :=
  if planLen ≥ 2 then
    match pyIndex plan 0 with
    | .error e => .error e
    | .ok entry0 =>
    match pyIndex plan 1 with
    | .error e => .error e
    | .ok entry1 =>
    match pyDictGetD entry0 "focus" (JsonValue.str "Option A") with
    | .error e => .error e
    | .ok focus0 =>
    match pyDictGetD entry0 "task" (JsonValue.str "Explore this path") with
    | .error e => .error e
    | .ok task0 =>
    match pyDictGetD entry1 "focus" (JsonValue.str "Option B") with
    | .error e => .error e
    | .ok focus1 =>
    match pyDictGetD entry1 "task" (JsonValue.str "Explore this path") with
    | .error e => .error e
    | .ok task1 =>
      .ok ("**Week 1 — " ++ pyStr focus0 ++ "**\n- " ++ pyStr task0 ++
           "\n\n**Week 2 — " ++ pyStr focus1 ++ "**\n- " ++ pyStr task1 ++ "\n\n")
  else .ok ""

/-- The comparison branch of compile_response (lines 44-69): deterministic
string assembly over the recommendations value, with the fallible Python
accesses (.get on possibly non-dict values, len, indexing and slicing on
possibly unsized values) sequenced in source order in the Except monad. -/
def compileComparison (recs : JsonValue) : Except String String :=
  match pyDictGetD recs "exploration_plan" (JsonValue.arr []) with
  | .error e => .error e
  | .ok plan =>
  match pyDictGetD recs "decision_criteria" (JsonValue.arr []) with
  | .error e => .error e
  | .ok criteria =>
  match pyDictGetD recs "final_suggestion" (JsonValue.str "") with
  | .error e => .error e
  | .ok suggestion =>
  match pyLen plan with
  | .error e => .error e
  | .ok planLen =>
  match comparisonWeekBlock plan planLen with
  | .error e => .error e
  | .ok weekBlock =>
  match pySliceToThree criteria with
  | .error e => .error e
  | .ok topCriteria =>
    let bullets := String.join (topCriteria.map (fun c => "- " ++ pyStr c ++ "\n"))
    let tail := if suggestion.truthy then "\n" ++ pyStr suggestion else ""
    .ok (comparisonIntro ++ weekBlock ++
         "After completing both phases, reflect on:\n" ++ bullets ++ tail)

/-- The prompt built by the direct branch of compile_response. -/
def coordinatorDirectPrompt (goal : String) (recs : JsonValue) : String :=
  "You are a friendly student career advisor.\n" ++
  "The student\x27s goal: " ++ goal ++ "\n" ++
  "Structured recommendations:\n" ++ pyStr recs ++ "\n\n" ++
  "Write a clear, encouraging, 3–5 sentence response that summarizes " ++
  "the top recommendation and one concrete next step. " ++
  "Address the student directly."

/-- compile_response: deterministic assembly for comparison decisions, a
completion call with stripped output for direct-path decisions. -/
def compile_response (llm : TextOracle) (state : AssistantState) :
    Except String AssistantState :=
  let recs := recsOf state
  let goal := pyOrString state.interpreted_goal state.user_input
  if coordinatorBranchIsComparison state then
    match compileComparison recs with
    | .error e => .error e
    | .ok response_text => .ok { state with final_response := some response_text }
  else
    let response :=
      llm "You are a helpful student planning assistant." (coordinatorDirectPrompt goal recs)
    .ok { state with final_response := some (pyStrip response) }

/-! ### Claim C2: decision-type classification -/

/-- Claim C2: for every parsed interpreted goal string, run_domain_reasoning
sets decision_type to "comparison" exactly when the lower-cased interpreted
goal contains one of the literal substrings " or ", "vs", "which", "better",
"compare", and to "direct_path" otherwise; the classification depends only on
the interpreted goal, not on the state (in particular not on user_input). -/
theorem c2_decision_type_classification
    (st st2 : AssistantState) (o : DomainParsed) (g : String)
    (hg : o.interpreted_goal = some g) :
    ((run_domain_reasoning (fun _ _ => some o) st).decision_type = some "comparison" ↔
      (strContains (strLower g) " or " = true ∨ strContains (strLower g) "vs" = true ∨
       strContains (strLower g) "which" = true ∨ strContains (strLower g) "better" = true ∨
       strContains (strLower g) "compare" = true)) ∧
    ((run_domain_reasoning (fun _ _ => some o) st).decision_type = some "direct_path" ↔
      ¬(strContains (strLower g) " or " = true ∨ strContains (strLower g) "vs" = true ∨
        strContains (strLower g) "which" = true ∨ strContains (strLower g) "better" = true ∨
        strContains (strLower g) "compare" = true)) ∧
    (run_domain_reasoning (fun _ _ => some o) st).decision_type =
      (run_domain_reasoning (fun _ _ => some o) st2).decision_type := by
  have key : ∀ s : AssistantState,
      (run_domain_reasoning (fun _ _ => some o) s).decision_type =
        some (if comparison_keywords.any (fun k => strContains (strLower g) k)
              then "comparison" else "direct_path") := by
    intro s
    simp [run_domain_reasoning, hg]
  have hexp : comparison_keywords.any (fun k => strContains (strLower g) k) = true ↔
      (strContains (strLower g) " or " = true ∨ strContains (strLower g) "vs" = true ∨
       strContains (strLower g) "which" = true ∨ strContains (strLower g) "better" = true ∨
       strContains (strLower g) "compare" = true) := by
    simp [comparison_keywords]
  refine ⟨?_, ?_, by rw [key st, key st2]⟩
  · rw [key st]
    by_cases h : comparison_keywords.any (fun k => strContains (strLower g) k) = true
    · simp [h, hexp.mp h]
    · have hfalse := Bool.eq_false_iff.mpr h
      have hnd : ¬(strContains (strLower g) " or " = true ∨ strContains (strLower g) "vs" = true ∨
          strContains (strLower g) "which" = true ∨ strContains (strLower g) "better" = true ∨
          strContains (strLower g) "compare" = true) := fun hd => h (hexp.mpr hd)
      simp [hfalse, hnd]
  · rw [key st]
    by_cases h : comparison_keywords.any (fun k => strContains (strLower g) k) = true
    · simp [h, hexp.mp h]
    · have hfalse := Bool.eq_false_iff.mpr h
      have hnd : ¬(strContains (strLower g) " or " = true ∨ strContains (strLower g) "vs" = true ∨
          strContains (strLower g) "which" = true ∨ strContains (strLower g) "better" = true ∨
          strContains (strLower g) "compare" = true) := fun hd => h (hexp.mpr hd)
      simp [hfalse, hnd]

/-- Witness for C2 at a concrete comparison-shaped goal. -/
theorem c2_witness :
    ((run_domain_reasoning
        (fun _ _ => some { interpreted_goal := some "ML vs backend" : DomainParsed })
        { user_input := "hello" }).decision_type = some "comparison" ↔
      (strContains (strLower "ML vs backend") " or " = true ∨
       strContains (strLower "ML vs backend") "vs" = true ∨
       strContains (strLower "ML vs backend") "which" = true ∨
       strContains (strLower "ML vs backend") "better" = true ∨
       strContains (strLower "ML vs backend") "compare" = true)) ∧
    ((run_domain_reasoning
        (fun _ _ => some { interpreted_goal := some "ML vs backend" : DomainParsed })
        { user_input := "hello" }).decision_type = some "direct_path" ↔
      ¬(strContains (strLower "ML vs backend") " or " = true ∨
        strContains (strLower "ML vs backend") "vs" = true ∨
        strContains (strLower "ML vs backend") "which" = true ∨
        strContains (strLower "ML vs backend") "better" = true ∨
        strContains (strLower "ML vs backend") "compare" = true)) ∧
    (run_domain_reasoning
        (fun _ _ => some { interpreted_goal := some "ML vs backend" : DomainParsed })
        { user_input := "hello" }).decision_type =
      (run_domain_reasoning
        (fun _ _ => some { interpreted_goal := some "ML vs backend" : DomainParsed })
        { user_input := "unrelated input" }).decision_type :=
  c2_decision_type_classification
    { user_input := "hello" } { user_input := "unrelated input" }
    { interpreted_goal := some "ML vs backend" } "ML vs backend" rfl

/-! ### Claim C3: the canonical comparison example -/

/-- The concrete input state of the C3 scenario. -/
def c3_state : AssistantState :=
  { user_input := "Should I do ML or backend development?" }

/-- The backend stub of the C3 scenario: a JSON object whose
interpreted_goal is "choosing between ML and backend". -/
def c3_parsed : DomainParsed :=
  { interpreted_goal := some "choosing between ML and backend",
    extracted_constraints := some [],
    missing_information := some [],
    confidence_score := some (9/10) }

/-- Claim C3 counterexample: with that stub, decision_type is NOT
"comparison" — the classifier scans the interpreted goal
"choosing between ml and backend", which contains none of the five
comparison substrings (the " or " of the raw user_input is never scanned). -/
theorem c3_counterexample :
    (run_domain_reasoning (fun _ _ => some c3_parsed) c3_state).decision_type ≠
      some "comparison" := by
  decide

/-- Claim C3 (amended): for the input user_input =
"Should I do ML or backend development?" with the completion backend
returning a JSON object whose interpreted_goal is
"choosing between ML and backend", run_domain_reasoning sets decision_type
to "direct_path", because the lower-cased interpreted goal contains none of
the comparison substrings. -/
theorem c3_amended_direct_path :
    (run_domain_reasoning (fun _ _ => some c3_parsed) c3_state).decision_type =
      some "direct_path" := by
  decide

/-! ### Claim C5: deterministic constraint extraction -/

/-- Claim C5: the stored extracted_constraints is computed solely from the
original user_input by the fixed six-category keyword scan — the completion
output (including its constraint list) is discarded entirely — and for the
beginner-with-limited-time user input named by the claim the result is
exactly the categories time and experience (order is table order; no
duplicates, no other categories). -/
theorem c5_constraints_deterministic
    (st : AssistantState) (r r2 : Option DomainParsed) :
    (run_domain_reasoning (fun _ _ => r) st).extracted_constraints =
      some (_extract_explicit_constraints st.user_input) ∧
    (run_domain_reasoning (fun _ _ => r) st).extracted_constraints =
      (run_domain_reasoning (fun _ _ => r2) st).extracted_constraints ∧
    _extract_explicit_constraints "I\x27m a beginner and I have limited time" =
      ["time", "experience"] := by
  refine ⟨rfl, rfl, by decide⟩

/-! ### Claim C8: identical branching of Recommendation and Coordinator -/

/-- Claim C8: run_recommendation and compile_response branch identically on
decision_type: their branch tests agree on every state, and the comparison
branch is taken exactly when decision_type is set to the string "comparison"
— when decision_type is unset, empty, or any other value, both stages take
the direct-path branch. -/
theorem c8_branching_identical (st : AssistantState) :
    recommendationBranchIsComparison st = coordinatorBranchIsComparison st ∧
    (recommendationBranchIsComparison st = true ↔
      st.decision_type = some "comparison") := by
  refine ⟨rfl, ?_⟩
  cases h : st.decision_type with
  | none =>
    simp [recommendationBranchIsComparison, pyOrString, h]
  | some v =>
    by_cases hv : v = ""
    · subst hv
      simp [recommendationBranchIsComparison, pyOrString, h]
    · simp [recommendationBranchIsComparison, pyOrString, h, hv]

/-! ### Claim C4: the comparison confidence cap -/

/-- Claim C4: for every user_input and reported confidence c, if the computed
decision_type is "comparison" and the user_input contains no background
context the stored confidence is min(c, 0.67); if the decision_type is
"direct_path", or background context is present, the confidence passes
through unchanged; and with no context, 0.95 adjusts to exactly 0.67. -/
theorem c4_confidence_cap
    (st : AssistantState) (o : DomainParsed) (c : ℚ)
    (hc : o.confidence_score = some c) :
    ((run_domain_reasoning (fun _ _ => some o) st).decision_type = some "comparison" →
      _has_background_context st.user_input = false →
      (run_domain_reasoning (fun _ _ => some o) st).confidence_score =
        some (pyMin c (67/100))) ∧
    ((run_domain_reasoning (fun _ _ => some o) st).decision_type = some "direct_path" →
      (run_domain_reasoning (fun _ _ => some o) st).confidence_score = some c) ∧
    ((run_domain_reasoning (fun _ _ => some o) st).decision_type = some "comparison" →
      _has_background_context st.user_input = true →
      (run_domain_reasoning (fun _ _ => some o) st).confidence_score = some c) ∧
    (_has_background_context st.user_input = false →
      _adjust_confidence_for_comparison (95/100) "comparison" st.user_input = 67/100) := by
  have hcs : (run_domain_reasoning (fun _ _ => some o) st).confidence_score =
      some (_adjust_confidence_for_comparison c
        (if comparison_keywords.any
              (fun k => strContains (strLower (o.interpreted_goal.getD "")) k)
         then "comparison" else "direct_path") st.user_input) := by
    simp [run_domain_reasoning, hc]
  have hdt : (run_domain_reasoning (fun _ _ => some o) st).decision_type =
      some (if comparison_keywords.any
                (fun k => strContains (strLower (o.interpreted_goal.getD "")) k)
            then "comparison" else "direct_path") := rfl
  have hmin : ¬ ((95 : ℚ)/100 ≤ 67/100) := by norm_num
  by_cases hb : comparison_keywords.any
      (fun k => strContains (strLower (o.interpreted_goal.getD "")) k) = true
  · refine ⟨?_, ?_, ?_, ?_⟩
    · intro _ hctx
      rw [hcs]
      simp [hb, _adjust_confidence_for_comparison, hctx]
    · intro hdp
      rw [hdt] at hdp
      simp [hb] at hdp
    · intro _ hctx
      rw [hcs]
      simp [hb, _adjust_confidence_for_comparison, hctx]
    · intro hctx
      simp [_adjust_confidence_for_comparison, hctx, pyMin, hmin]
  · have hbf := Bool.eq_false_iff.mpr hb
    refine ⟨?_, ?_, ?_, ?_⟩
    · intro hcomp _
      rw [hdt] at hcomp
      simp [hbf] at hcomp
    · intro _
      rw [hcs]
      simp [hbf, _adjust_confidence_for_comparison]
    · intro hcomp _
      rw [hdt] at hcomp
      simp [hbf] at hcomp
    · intro hctx
      simp [_adjust_confidence_for_comparison, hctx, pyMin, hmin]

/-- Concrete state for the C4 witness: no background-context keyword. -/
def c4_state : AssistantState := { user_input := "hello" }

/-- Concrete backend output for the C4 witness: comparison goal, confidence
0.95. -/
def c4_parsed : DomainParsed :=
  { interpreted_goal := some "ml or backend", confidence_score := some (95/100) }

/-- Witness for C4: the cap fires on a concrete comparison input without
background context, and 0.95 adjusts to 0.67. -/
theorem c4_witness :
    (run_domain_reasoning (fun _ _ => some c4_parsed) c4_state).confidence_score =
      some (pyMin (95/100) (67/100)) ∧
    _adjust_confidence_for_comparison (95/100) "comparison" c4_state.user_input = 67/100 :=
  ⟨(c4_confidence_cap c4_state c4_parsed (95/100) rfl).1 (by decide) (by decide),
   (c4_confidence_cap c4_state c4_parsed (95/100) rfl).2.2.2 (by decide)⟩

/-! ### Claim C1: the comparison branch fallback guarantee -/

/-- The four validation-failure classes of the comparison branch named by the
claim: non-JSON text, JSON that is not a mapping, a mapping missing one of
the five required keys, a mapping with an empty exploration_plan. -/
def comparisonFailureOutput (r : Option JsonValue) : Prop :=
  r = none ∨
  (∃ v, r = some v ∧ v.isObj = false) ∨
  (∃ fields, r = some (JsonValue.obj fields) ∧
    ∃ k, k ∈ requiredComparisonKeys ∧ jsonLookup fields k = none) ∨
  (∃ fields, r = some (JsonValue.obj fields) ∧
    jsonLookup fields "exploration_plan" = some (JsonValue.arr []))

/-- Structural validity of a comparison recommendations value: it is a
mapping containing all five required keys whose exploration_plan is a
non-empty list. -/
def comparisonShapeOK (v : JsonValue) : Bool :=
  requiredComparisonKeys.all (fun k => jsonHasKey v k) &&
  (match v with
   | .obj fields =>
     match jsonLookup fields "exploration_plan" with
     | some (.arr (_ :: _)) => true
     | _ => false
   | _ => false)

/-- Claim C1: on the comparison branch, every validation-failure completion
output (non-JSON, non-mapping, missing required key, empty exploration_plan)
makes run_recommendation store exactly the fixed deterministic fallback
object, which contains all five required keys and a non-empty
exploration_plan. -/
theorem c1_comparison_fallback (st : AssistantState) (r : Option JsonValue)
    (hb : recommendationBranchIsComparison st = true)
    (hr : comparisonFailureOutput r) :
    run_recommendation (fun _ _ => r) st =
      Except.ok
        { st with recommendations := some (_comparison_fallback (pyOrString st.interpreted_goal st.user_input)) } ∧
    comparisonShapeOK
      (_comparison_fallback (pyOrString st.interpreted_goal st.user_input)) = true := by
  constructor
  · have hgen : _generate_comparison_recommendation (fun _ _ => r)
        (pyOrString st.interpreted_goal st.user_input)
        (pyOrList st.extracted_constraints []) (pyOrList st.missing_information []) =
        _comparison_fallback (pyOrString st.interpreted_goal st.user_input) := by
      rcases hr with h | ⟨v, hv, hobj⟩ | ⟨fields, hf, k, hk, hlk⟩ | ⟨fields, hf, hlk⟩
      · subst h
        rfl
      · subst hv
        cases v with
        | obj fields => simp [JsonValue.isObj] at hobj
        | null => rfl
        | bool b => rfl
        | num q => rfl
        | str s => rfl
        | arr elems => rfl
      · subst hf
        have hnall : ¬ (requiredComparisonKeys.all
            (fun k2 => (jsonLookup fields k2).isSome) = true) := by
          intro hall
          have hsome := List.all_eq_true.mp hall k hk
          rw [hlk] at hsome
          simp at hsome
        have hallf := Bool.eq_false_iff.mpr hnall
        simp [_generate_comparison_recommendation, hallf]
      · subst hf
        by_cases hall : requiredComparisonKeys.all
            (fun k2 => (jsonLookup fields k2).isSome) = true
        · simp [_generate_comparison_recommendation, hall, hlk, JsonValue.truthy]
        · simp [_generate_comparison_recommendation, Bool.eq_false_iff.mpr hall]
    simp [run_recommendation, hb, hgen]
  · rfl

/-- Concrete comparison-classified state for the C1 witness. -/
def c1_state : AssistantState :=
  { user_input := "ML or backend?", decision_type := some "comparison" }

/-- Witness for C1 at a parse-failure backend output. -/
theorem c1_witness :
    run_recommendation (fun _ _ => (none : Option JsonValue)) c1_state =
      Except.ok
        { c1_state with recommendations := some (_comparison_fallback (pyOrString c1_state.interpreted_goal c1_state.user_input)) } ∧
    comparisonShapeOK
      (_comparison_fallback (pyOrString c1_state.interpreted_goal c1_state.user_input)) = true :=
  c1_comparison_fallback c1_state none rfl (Or.inl rfl)

/-! ### Claim C7: the direct-path parse fallback -/

/-- Claim C7: on the direct-path branch a parse failure yields exactly the
degraded object (primary_path "Unable to parse recommendations.",
secondary_path "N/A", a reasoning string stating the format was unexpected,
empty next-steps and resources), which run_recommendation stores as the
recommendations; and on this branch no schema-key validation happens beyond
the parse check — any successfully parsed value is returned verbatim by the
generator. -/
theorem c7_direct_parse_fallback :
    (∀ (goal : String) (constraints missing : List String),
      _generate_direct_recommendation (fun _ _ => none) goal constraints missing =
        directParseFallback) ∧
    directParseFallback =
      JsonValue.obj
        [("primary_path", JsonValue.str "Unable to parse recommendations."),
         ("secondary_path", JsonValue.str "N/A"),
         ("reasoning", JsonValue.str "LLM returned unexpected format."),
         ("immediate_next_steps", JsonValue.arr []),
         ("resources", JsonValue.arr [])] ∧
    (∀ (st : AssistantState), recommendationBranchIsComparison st = false →
      run_recommendation (fun _ _ => none) st =
        Except.ok { st with recommendations := some directParseFallback }) ∧
    (∀ (goal : String) (constraints missing : List String) (v : JsonValue),
      _generate_direct_recommendation (fun _ _ => some v) goal constraints missing = v) := by
  refine ⟨fun _ _ _ => rfl, rfl, ?_, fun _ _ _ _ => rfl⟩
  intro st hb
  simp [run_recommendation, hb, _generate_direct_recommendation,
        pyDictGet, directParseFallback, jsonLookup, List.lookup]

/-- Concrete direct-path state for the C7 witness. -/
def c7_state : AssistantState :=
  { user_input := "plan for me", decision_type := some "direct_path" }

/-- Witness for C7: the degraded object is stored on a concrete direct-path
state when the backend output fails to parse. -/
theorem c7_witness :
    run_recommendation (fun _ _ => (none : Option JsonValue)) c7_state =
      Except.ok { c7_state with recommendations := some directParseFallback } :=
  c7_direct_parse_fallback.2.2.1 c7_state rfl

/-! ### Claim C10: non-mapping direct-path outputs -/

/-- Concrete direct-path state for the C10 scenario. -/
def c10_state : AssistantState :=
  { user_input := "plan for me", decision_type := some "direct_path" }

/-- Claim C10 counterexample: when the backend output parses to a JSON array
or a JSON string on the direct branch, run_recommendation does NOT store the
value — it raises AttributeError at the logging call
recommendations.get("primary_path") and produces no state at all. -/
theorem c10_counterexample :
    run_recommendation (fun _ _ => some (JsonValue.arr [JsonValue.num 1])) c10_state =
      Except.error "AttributeError" ∧
    run_recommendation (fun _ _ => some (JsonValue.str "not a mapping")) c10_state =
      Except.error "AttributeError" :=
  ⟨rfl, rfl⟩

/-- Claim C10 (amended): on the direct-path branch, a backend output that
parses to a mapping is stored verbatim with no schema-key validation; a
backend output that parses to any non-mapping JSON value is not stored —
run_recommendation raises AttributeError at the logging call instead. -/
theorem c10_amended_nonmapping (st : AssistantState)
    (hb : recommendationBranchIsComparison st = false) :
    (∀ fields, run_recommendation (fun _ _ => some (JsonValue.obj fields)) st =
        Except.ok { st with recommendations := some (JsonValue.obj fields) }) ∧
    (∀ v : JsonValue, v.isObj = false →
        run_recommendation (fun _ _ => some v) st = Except.error "AttributeError") := by
  constructor
  · intro fields
    simp [run_recommendation, hb, _generate_direct_recommendation, pyDictGet]
  · intro v hv
    cases v with
    | obj fields => simp [JsonValue.isObj] at hv
    | null => simp [run_recommendation, hb, _generate_direct_recommendation, pyDictGet]
    | bool b => simp [run_recommendation, hb, _generate_direct_recommendation, pyDictGet]
    | num q => simp [run_recommendation, hb, _generate_direct_recommendation, pyDictGet]
    | str s => simp [run_recommendation, hb, _generate_direct_recommendation, pyDictGet]
    | arr elems => simp [run_recommendation, hb, _generate_direct_recommendation, pyDictGet]

/-- Witness for the amended C10: a concrete mapping is stored verbatim. -/
theorem c10_witness :
    run_recommendation
      (fun _ _ => some (JsonValue.obj [("primary_path", JsonValue.str "Data Engineering")]))
      c10_state =
      Except.ok
        { c10_state with recommendations := some (JsonValue.obj [("primary_path", JsonValue.str "Data Engineering")]) } :=
  (c10_amended_nonmapping c10_state rfl).1 [("primary_path", JsonValue.str "Data Engineering")]

/-! ### Claim C6: deterministic comparison response assembly -/

/-- The comparison response text described by the claim when the exploration
plan has at least two entries, whose field lists are e0 and e1: fixed intro,
Week 1 / Week 2 blocks with the source defaults for absent focus and task,
at most the first three criteria as bullets, the suggestion appended when
non-empty. -/
def comparisonResponseLong
    (e0 e1 : List (String × JsonValue)) (cs : List String) (sugg : String) : String :=
  comparisonIntro ++
  ("**Week 1 — " ++ pyStr ((jsonLookup e0 "focus").getD (JsonValue.str "Option A")) ++
   "**\n- " ++ pyStr ((jsonLookup e0 "task").getD (JsonValue.str "Explore this path")) ++
   "\n\n**Week 2 — " ++ pyStr ((jsonLookup e1 "focus").getD (JsonValue.str "Option B")) ++
   "**\n- " ++ pyStr ((jsonLookup e1 "task").getD (JsonValue.str "Explore this path")) ++
   "\n\n") ++
  "After completing both phases, reflect on:\n" ++
  String.join ((cs.take 3).map (fun c => "- " ++ c ++ "\n")) ++
  (if sugg = "" then "" else "\n" ++ sugg)

/-- The comparison response text described by the claim when the exploration
plan has fewer than two entries: no week block is emitted. -/
def comparisonResponseShort (cs : List String) (sugg : String) : String :=
  comparisonIntro ++ "" ++
  "After completing both phases, reflect on:\n" ++
  String.join ((cs.take 3).map (fun c => "- " ++ c ++ "\n")) ++
  (if sugg = "" then "" else "\n" ++ sugg)

/-- Helper: evaluation of the comparison assembly on a recommendations
mapping whose exploration_plan holds at least two mapping entries, whose
decision_criteria is a list of strings, and whose final_suggestion is a
string. -/
theorem compileComparison_eval_long
    (fs e0 e1 : List (String × JsonValue)) (rest : List JsonValue)
    (cs : List String) (sugg : String)
    (hplan : (jsonLookup fs "exploration_plan").getD (JsonValue.arr []) =
      JsonValue.arr (JsonValue.obj e0 :: JsonValue.obj e1 :: rest))
    (hcrit : (jsonLookup fs "decision_criteria").getD (JsonValue.arr []) =
      JsonValue.arr (cs.map JsonValue.str))
    (hsugg : (jsonLookup fs "final_suggestion").getD (JsonValue.str "") =
      JsonValue.str sugg) :
    compileComparison (JsonValue.obj fs) =
      Except.ok (comparisonResponseLong e0 e1 cs sugg) := by
  have h2 : 2 ≤ rest.length + 2 := Nat.le_add_left 2 rest.length
  have hmap : ((cs.map JsonValue.str).take 3).map (fun c => "- " ++ pyStr c ++ "\n") =
      (cs.take 3).map (fun c => "- " ++ c ++ "\n") := by
    rw [← List.map_take, List.map_map]
    rfl
  have htail : (if (JsonValue.str sugg).truthy = true
        then "\n" ++ pyStr (JsonValue.str sugg) else "") =
      (if sugg = "" then "" else "\n" ++ sugg) := by
    by_cases hs : sugg = ""
    · subst hs
      simp [JsonValue.truthy, pyStr]
    · simp [JsonValue.truthy, pyStr, hs]
  simp [compileComparison, pyDictGetD, hplan, hcrit, hsugg, pyLen,
        comparisonWeekBlock, h2, pyIndex, pySliceToThree, hmap, htail,
        comparisonResponseLong]

/-- Helper: evaluation of the comparison assembly when the exploration plan
has fewer than two entries — no week block is emitted. -/
theorem compileComparison_eval_short
    (fs : List (String × JsonValue)) (ps : List JsonValue)
    (cs : List String) (sugg : String)
    (hplan : (jsonLookup fs "exploration_plan").getD (JsonValue.arr []) =
      JsonValue.arr ps)
    (hshort : ps.length < 2)
    (hcrit : (jsonLookup fs "decision_criteria").getD (JsonValue.arr []) =
      JsonValue.arr (cs.map JsonValue.str))
    (hsugg : (jsonLookup fs "final_suggestion").getD (JsonValue.str "") =
      JsonValue.str sugg) :
    compileComparison (JsonValue.obj fs) =
      Except.ok (comparisonResponseShort cs sugg) := by
  have hn2 : ¬ (2 ≤ ps.length) := Nat.not_le.mpr hshort
  have hmap : ((cs.map JsonValue.str).take 3).map (fun c => "- " ++ pyStr c ++ "\n") =
      (cs.take 3).map (fun c => "- " ++ c ++ "\n") := by
    rw [← List.map_take, List.map_map]
    rfl
  have htail : (if (JsonValue.str sugg).truthy = true
        then "\n" ++ pyStr (JsonValue.str sugg) else "") =
      (if sugg = "" then "" else "\n" ++ sugg) := by
    by_cases hs : sugg = ""
    · subst hs
      simp [JsonValue.truthy, pyStr]
    · simp [JsonValue.truthy, pyStr, hs]
  simp [compileComparison, pyDictGetD, hplan, hcrit, hsugg, pyLen,
        comparisonWeekBlock, hn2, pySliceToThree, hmap, htail,
        comparisonResponseShort]

/-- Claim C6: on the comparison branch compile_response never consults the
completion backend — any two oracles yield identical results on the same
state — and the final_response is the deterministic assembly: the fixed
introductory sentence; a Week 1 / Week 2 block (with the source defaults
for absent focus and task) exactly when the exploration plan has at least
two entries; at most the first three decision criteria as bullet lines; and
the final suggestion appended exactly when non-empty. -/
theorem c6_comparison_deterministic
    (f g : TextOracle) (st : AssistantState)
    (hb : coordinatorBranchIsComparison st = true) :
    (compile_response f st = compile_response g st) ∧
    (∀ (fs e0 e1 : List (String × JsonValue)) (rest : List JsonValue)
        (cs : List String) (sugg : String),
      recsOf st = JsonValue.obj fs →
      (jsonLookup fs "exploration_plan").getD (JsonValue.arr []) =
        JsonValue.arr (JsonValue.obj e0 :: JsonValue.obj e1 :: rest) →
      (jsonLookup fs "decision_criteria").getD (JsonValue.arr []) =
        JsonValue.arr (cs.map JsonValue.str) →
      (jsonLookup fs "final_suggestion").getD (JsonValue.str "") =
        JsonValue.str sugg →
      compile_response f st =
        Except.ok { st with final_response := some (comparisonResponseLong e0 e1 cs sugg) }) ∧
    (∀ (fs : List (String × JsonValue)) (ps : List JsonValue)
        (cs : List String) (sugg : String),
      recsOf st = JsonValue.obj fs →
      (jsonLookup fs "exploration_plan").getD (JsonValue.arr []) = JsonValue.arr ps →
      ps.length < 2 →
      (jsonLookup fs "decision_criteria").getD (JsonValue.arr []) =
        JsonValue.arr (cs.map JsonValue.str) →
      (jsonLookup fs "final_suggestion").getD (JsonValue.str "") =
        JsonValue.str sugg →
      compile_response f st =
        Except.ok { st with final_response := some (comparisonResponseShort cs sugg) }) := by
  refine ⟨?_, ?_, ?_⟩
  · simp [compile_response, hb]
  · intro fs e0 e1 rest cs sugg hrec hplan hcrit hsugg
    have hcc := compileComparison_eval_long fs e0 e1 rest cs sugg hplan hcrit hsugg
    simp [compile_response, hb, hrec, hcc]
  · intro fs ps cs sugg hrec hplan hshort hcrit hsugg
    have hcc := compileComparison_eval_short fs ps cs sugg hplan hshort hcrit hsugg
    simp [compile_response, hb, hrec, hcc]

/-- The two plan entries of the C6 witness state. -/
def c6_entry0 : List (String × JsonValue) :=
  [("focus", JsonValue.str "Backend"), ("task", JsonValue.str "Build an API")]

/-- The second (empty) plan entry of the C6 witness state. -/
def c6_entry1 : List (String × JsonValue) := []

/-- The recommendations field list of the C6 witness state. -/
def c6_fields : List (String × JsonValue) :=
  [("exploration_plan", JsonValue.arr [JsonValue.obj c6_entry0, JsonValue.obj c6_entry1]),
   ("decision_criteria", JsonValue.arr (["Q1", "Q2"].map JsonValue.str)),
   ("final_suggestion", JsonValue.str "Pick one.")]

/-- The concrete comparison state of the C6 witness. -/
def c6_state : AssistantState :=
  { user_input := "ML or backend?",
    decision_type := some "comparison",
    recommendations := some (JsonValue.obj c6_fields) }

/-- Witness for C6: two different oracles produce identical output on a
concrete comparison state, and the output is the described assembly. -/
theorem c6_witness :
    (compile_response (fun _ _ => "A") c6_state =
      compile_response (fun _ _ => "B") c6_state) ∧
    compile_response (fun _ _ => "A") c6_state =
      Except.ok { c6_state with final_response := some (comparisonResponseLong c6_entry0 c6_entry1 ["Q1", "Q2"] "Pick one.") } :=
  ⟨(c6_comparison_deterministic (fun _ _ => "A") (fun _ _ => "B") c6_state rfl).1,
   (c6_comparison_deterministic (fun _ _ => "A") (fun _ _ => "B") c6_state rfl).2.1
     c6_fields c6_entry0 c6_entry1 [] ["Q1", "Q2"] "Pick one." rfl rfl rfl rfl⟩

/-! ### Claim C9: append-only frame updates of the three stages -/

/-- Claim C9: every stage is an append-only frame update.
run_domain_reasoning changes only interpreted_goal, extracted_constraints,
missing_information, confidence_score and decision_type (user_input,
recommendations and final_response are preserved); run_recommendation, when
it returns a state, changes only recommendations; compile_response, when it
returns a state, changes only final_response.  Consequently no field set by
an earlier stage is overwritten by a later one. -/
theorem c9_stage_frames
    (st : AssistantState) (dllm : DomainOracle) (rllm : RecOracle) (cllm : TextOracle) :
    ((run_domain_reasoning dllm st).user_input = st.user_input ∧
     (run_domain_reasoning dllm st).recommendations = st.recommendations ∧
     (run_domain_reasoning dllm st).final_response = st.final_response) ∧
    (∀ st2, run_recommendation rllm st = Except.ok st2 →
      st2.user_input = st.user_input ∧
      st2.interpreted_goal = st.interpreted_goal ∧
      st2.extracted_constraints = st.extracted_constraints ∧
      st2.missing_information = st.missing_information ∧
      st2.confidence_score = st.confidence_score ∧
      st2.decision_type = st.decision_type ∧
      st2.final_response = st.final_response) ∧
    (∀ st3, compile_response cllm st = Except.ok st3 →
      st3.user_input = st.user_input ∧
      st3.interpreted_goal = st.interpreted_goal ∧
      st3.extracted_constraints = st.extracted_constraints ∧
      st3.missing_information = st.missing_information ∧
      st3.confidence_score = st.confidence_score ∧
      st3.decision_type = st.decision_type ∧
      st3.recommendations = st.recommendations) := by
  refine ⟨⟨rfl, rfl, rfl⟩, ?_, ?_⟩
  · intro st2 h
    by_cases hb : recommendationBranchIsComparison st = true
    · simp [run_recommendation, hb] at h
      subst h
      exact ⟨rfl, rfl, rfl, rfl, rfl, rfl, rfl⟩
    · have hbf := Bool.eq_false_iff.mpr hb
      simp only [run_recommendation, hbf, Bool.false_eq_true, if_false] at h
      cases hget : pyDictGet
          (_generate_direct_recommendation rllm
            (pyOrString st.interpreted_goal st.user_input)
            (pyOrList st.extracted_constraints [])
            (pyOrList st.missing_information [])) "primary_path" with
      | error e =>
        rw [hget] at h
        simp at h
      | ok w =>
        rw [hget] at h
        simp only [Except.ok.injEq] at h
        subst h
        exact ⟨rfl, rfl, rfl, rfl, rfl, rfl, rfl⟩
  · intro st3 h
    by_cases hb : coordinatorBranchIsComparison st = true
    · simp only [compile_response, hb, if_true] at h
      cases hcc : compileComparison (recsOf st) with
      | error e =>
        rw [hcc] at h
        simp at h
      | ok txt =>
        rw [hcc] at h
        simp only [Except.ok.injEq] at h
        subst h
        exact ⟨rfl, rfl, rfl, rfl, rfl, rfl, rfl⟩
    · have hbf := Bool.eq_false_iff.mpr hb
      simp only [compile_response, hbf, Bool.false_eq_true, if_false, Except.ok.injEq] at h
      subst h
      exact ⟨rfl, rfl, rfl, rfl, rfl, rfl, rfl⟩

/-- The concrete state of the C9 witness (all upstream fields populated). -/
def c9_state : AssistantState :=
  { user_input := "plan my career",
    interpreted_goal := some "career plan",
    extracted_constraints := some ["time"],
    missing_information := some [],
    decision_type := some "direct_path" }

/-- The state produced by the recommendation stage in the C9 witness. -/
def c9_rec_out : AssistantState :=
  { c9_state with recommendations := some directParseFallback }

/-- The state produced by the coordinator stage in the C9 witness. -/
def c9_comp_out : AssistantState :=
  { c9_state with final_response := some (pyStrip "  Great plan!  ") }

/-- Witness for C9 on concrete oracles and a concrete direct-path state. -/
theorem c9_witness :
    (run_domain_reasoning (fun _ _ => none) c9_state).user_input = c9_state.user_input ∧
    c9_rec_out.user_input = c9_state.user_input ∧
    c9_rec_out.decision_type = c9_state.decision_type ∧
    c9_comp_out.user_input = c9_state.user_input ∧
    c9_comp_out.recommendations = c9_state.recommendations :=
  ⟨(c9_stage_frames c9_state (fun _ _ => none) (fun _ _ => none)
      (fun _ _ => "  Great plan!  ")).1.1,
   ((c9_stage_frames c9_state (fun _ _ => none) (fun _ _ => none)
      (fun _ _ => "  Great plan!  ")).2.1 c9_rec_out rfl).1,
   ((c9_stage_frames c9_state (fun _ _ => none) (fun _ _ => none)
      (fun _ _ => "  Great plan!  ")).2.1 c9_rec_out rfl).2.2.2.2.2.1,
   ((c9_stage_frames c9_state (fun _ _ => none) (fun _ _ => none)
      (fun _ _ => "  Great plan!  ")).2.2 c9_comp_out rfl).1,
   ((c9_stage_frames c9_state (fun _ _ => none) (fun _ _ => none)
      (fun _ _ => "  Great plan!  ")).2.2 c9_comp_out rfl).2.2.2.2.2.2⟩
